import Mathlib

/-!
Formal verification of the authentication / session / rate-limiting core of the
shalabiverse course-platform application (files `security_utils.py` and `app.py`).

The Python code is shallowly embedded: Python floats used as UNIX timestamps are
modelled as `Int` (only comparisons and additions of timestamps occur, so the
ordered-ring structure is all that matters), Python `None`-able values as
`Option`, Python dictionaries keyed by strings as total functions with the
defaultdict default, and the mutation of shared state as explicit state passing.
Randomness sources (`secrets.token_urlsafe`, per-call PBKDF2 salts) are
modelled as explicit entropy inputs, and fixed external one-way digest
functions (SHA-256, PBKDF2) as function parameters, since only their
determinism and the plumbing around them are at issue.
-/

set_option maxRecDepth 4000

/-- Pointwise update of a string-keyed map, modelling a Python dict assignment
`d[k] = v` on top of a defaultdict read model. -/
def setAt {α : Type} (f : String → α) (k : String) (v : α) : String → α :=
  fun j => if j = k then v else f j

theorem setAt_same {α : Type} (f : String → α) (k : String) (v : α) :
    setAt f k v k = v := by
  simp [setAt]

theorem setAt_other {α : Type} (f : String → α) (k : String) (v : α) (j : String)
    (h : j ≠ k) : setAt f k v j = f j := by
  simp [setAt, h]

/-! ### Rate limiter (`security_utils.py`, class `RateLimiter`) -/

/-- State of `RateLimiter`: `requests` models `defaultdict(deque)` (front of the
list = left of the deque = oldest timestamp; a missing key reads as the empty
deque), `blocked_ips` models the block dict (`none` = key absent). -/
structure RateLimiter where
  requests : String → List Int
  blocked_ips : String → Option Int

/-- Fresh `RateLimiter()` state: no recorded requests, no blocks. -/
def RateLimiter.empty : RateLimiter :=
  { requests := fun _ => [], blocked_ips := fun _ => none }

/-- Embedding of the pruning loop
`while request_times and request_times[0] < current_time - window_seconds:
request_times.popleft()`: removes the maximal prefix of timestamps strictly
older than `current_time - window_seconds`. -/
def pruneOld (window_seconds current_time : Int) : List Int → List Int
  | [] => []
  | t :: ts =>
    if t < current_time - window_seconds then pruneOld window_seconds current_time ts
    else t :: ts

/-- Steps 3-5 of `RateLimiter.is_allowed` (reached when the identifier is not
currently blocked): prune, test the limit, and either record a block (leaving
the pruned deque as is, without appending the triggering request) or append the
current timestamp and allow. The pruned list persists in both branches because
the Python loop mutates the deque in place. -/
def RateLimiter.allowCore (rl : RateLimiter) (identifier : String)
    (current_time : Int) (max_requests : Nat) (window_seconds block_duration : Int) :
    Bool × RateLimiter :=
  let pruned := pruneOld window_seconds current_time (rl.requests identifier)
  if max_requests ≤ pruned.length then
    (false,
      { requests := setAt rl.requests identifier pruned,
        blocked_ips := setAt rl.blocked_ips identifier
          (some (current_time + block_duration)) })
  else
    (true,
      { requests := setAt rl.requests identifier (pruned ++ [current_time]),
        blocked_ips := rl.blocked_ips })

/-- Embedding of `RateLimiter.is_allowed(identifier, max_requests,
window_seconds, block_duration)`; `current_time` stands for the `time.time()`
reading taken at the top of the call. -/
def RateLimiter.is_allowed (rl : RateLimiter) (identifier : String)
    (current_time : Int) (max_requests : Nat) (window_seconds block_duration : Int) :
    Bool × RateLimiter :=
  match rl.blocked_ips identifier with
  | some blocked_until =>
    if current_time < blocked_until then
      (false, rl)
    else
      RateLimiter.allowCore
        { rl with blocked_ips := setAt rl.blocked_ips identifier none }
        identifier current_time max_requests window_seconds block_duration
  | none =>
      RateLimiter.allowCore rl identifier current_time max_requests window_seconds block_duration

/-- Sequence of `is_allowed` calls for one identifier at the given times, with
the default parameters `max_requests=5, window_seconds=300, block_duration=900`. -/
def isAllowedRun (rl : RateLimiter) (identifier : String) : List Int → List Bool × RateLimiter
  | [] => ([], rl)
  | t :: ts =>
    let step := rl.is_allowed identifier t 5 300 900
    let rest := isAllowedRun step.2 identifier ts
    (step.1 :: rest.1, rest.2)

theorem pruneOld_keep {w now t : Int} (ts : List Int) (h : ¬ t < now - w) :
    pruneOld w now (t :: ts) = t :: ts := by
  simp [pruneOld, h]

theorem pruneOld_drop {w now t : Int} (ts : List Int) (h : t < now - w) :
    pruneOld w now (t :: ts) = pruneOld w now ts := by
  simp [pruneOld, h]

theorem is_allowed_not_blocked (rl : RateLimiter) (identifier : String)
    (current_time : Int) (max_requests : Nat) (window_seconds block_duration : Int)
    (hb : rl.blocked_ips identifier = none) :
    rl.is_allowed identifier current_time max_requests window_seconds block_duration =
      rl.allowCore identifier current_time max_requests window_seconds block_duration := by
  unfold RateLimiter.is_allowed
  rw [hb]

theorem allowCore_under (rl : RateLimiter) (identifier : String)
    (current_time : Int) (max_requests : Nat) (window_seconds block_duration : Int)
    (hlen : (pruneOld window_seconds current_time (rl.requests identifier)).length < max_requests) :
    rl.allowCore identifier current_time max_requests window_seconds block_duration =
      (true,
        { requests := setAt rl.requests identifier
            (pruneOld window_seconds current_time (rl.requests identifier) ++ [current_time]),
          blocked_ips := rl.blocked_ips }) := by
  unfold RateLimiter.allowCore
  rw [if_neg (by omega)]

theorem allowCore_over (rl : RateLimiter) (identifier : String)
    (current_time : Int) (max_requests : Nat) (window_seconds block_duration : Int)
    (hlen : max_requests ≤ (pruneOld window_seconds current_time (rl.requests identifier)).length) :
    rl.allowCore identifier current_time max_requests window_seconds block_duration =
      (false,
        { requests := setAt rl.requests identifier
            (pruneOld window_seconds current_time (rl.requests identifier)),
          blocked_ips := setAt rl.blocked_ips identifier
            (some (current_time + block_duration)) }) := by
  unfold RateLimiter.allowCore
  rw [if_pos hlen]

theorem pruneOld_all {w now : Int} (l : List Int) (h : ∀ x ∈ l, x < now - w) :
    pruneOld w now l = [] := by
  induction l with
  | nil => rfl
  | cons t ts ih =>
    rw [pruneOld_drop _ (h t (by simp))]
    exact ih (fun x hx => h x (by simp [hx]))

theorem is_allowed_blocked (rl : RateLimiter) (identifier : String) (t bu : Int)
    (max_requests : Nat) (window_seconds block_duration : Int)
    (hb : rl.blocked_ips identifier = some bu) (hlt : t < bu) :
    rl.is_allowed identifier t max_requests window_seconds block_duration = (false, rl) := by
  simp only [RateLimiter.is_allowed, hb]
  rw [if_pos hlt]

theorem is_allowed_step_true (rl : RateLimiter) (identifier : String) (t : Int)
    (l : List Int) (hb : rl.blocked_ips identifier = none)
    (hreq : rl.requests identifier = l) (hpr : pruneOld 300 t l = l)
    (hlen : l.length < 5) :
    rl.is_allowed identifier t 5 300 900 =
      (true, { requests := setAt rl.requests identifier (l ++ [t]),
               blocked_ips := rl.blocked_ips }) := by
  rw [is_allowed_not_blocked _ _ _ _ _ _ hb]
  have h2 : pruneOld 300 t (rl.requests identifier) = l := by rw [hreq, hpr]
  have h3 := allowCore_under rl identifier t 5 300 900 (by rw [h2]; exact hlen)
  rw [h2] at h3
  exact h3

theorem is_allowed_step_block (rl : RateLimiter) (identifier : String) (t : Int)
    (l : List Int) (hb : rl.blocked_ips identifier = none)
    (hreq : rl.requests identifier = l) (hpr : pruneOld 300 t l = l)
    (hlen : 5 ≤ l.length) :
    rl.is_allowed identifier t 5 300 900 =
      (false, { requests := setAt rl.requests identifier l,
                blocked_ips := setAt rl.blocked_ips identifier (some (t + 900)) }) := by
  rw [is_allowed_not_blocked _ _ _ _ _ _ hb]
  have h2 : pruneOld 300 t (rl.requests identifier) = l := by rw [hreq, hpr]
  have h3 := allowCore_over rl identifier t 5 300 900 (by rw [h2]; exact hlen)
  rw [h2] at h3
  exact h3

theorem is_allowed_unblock_true (rl : RateLimiter) (identifier : String) (t bu : Int)
    (l : List Int) (hb : rl.blocked_ips identifier = some bu) (hle : bu ≤ t)
    (hreq : rl.requests identifier = l) (hpr : pruneOld 300 t l = []) :
    (rl.is_allowed identifier t 5 300 900).1 = true ∧
    (rl.is_allowed identifier t 5 300 900).2.requests identifier = [t] := by
  simp only [RateLimiter.is_allowed, hb]
  rw [if_neg (by omega)]
  have h2 : pruneOld 300 t
      (({ rl with blocked_ips := setAt rl.blocked_ips identifier none } :
          RateLimiter).requests identifier) = [] := by
    rw [show ({ rl with blocked_ips := setAt rl.blocked_ips identifier none } :
        RateLimiter).requests = rl.requests from rfl, hreq, hpr]
  have h3 := allowCore_under
    { rl with blocked_ips := setAt rl.blocked_ips identifier none }
    identifier t 5 300 900 (by rw [h2]; norm_num)
  rw [h2] at h3
  rw [h3]
  exact ⟨rfl, by simp [setAt_same]⟩

/-- C1: from the fresh rate-limiter state with defaults `max_requests=5,
window_seconds=300, block_duration=900`, for six calls at nondecreasing times
within one window: the first five return true, the sixth returns false and
records `blocked_until = t6 + 900`; every call while that block is live returns
false and leaves the state untouched regardless of the timestamp window's
contents; and the first call once the 900 seconds have elapsed sees an empty
pruned window, returns true, and records just its own timestamp. -/
theorem C1_rate_limiter_scenario (t1 t2 t3 t4 t5 t6 : Int)
    (h12 : t1 ≤ t2) (h23 : t2 ≤ t3) (h34 : t3 ≤ t4) (h45 : t4 ≤ t5) (h56 : t5 ≤ t6)
    (hwin : t6 ≤ t1 + 300) :
    (isAllowedRun RateLimiter.empty "a" [t1, t2, t3, t4, t5, t6]).1 =
        [true, true, true, true, true, false] ∧
    (isAllowedRun RateLimiter.empty "a" [t1, t2, t3, t4, t5, t6]).2.blocked_ips "a" =
        some (t6 + 900) ∧
    (∀ (r : String → List Int) (b : String → Option Int) (t : Int),
        b "a" = some (t6 + 900) → t6 ≤ t → t < t6 + 900 →
        RateLimiter.is_allowed ⟨r, b⟩ "a" t 5 300 900 = (false, ⟨r, b⟩)) ∧
    (∀ t : Int, t6 + 900 ≤ t →
        pruneOld 300 t
          ((isAllowedRun RateLimiter.empty "a" [t1, t2, t3, t4, t5, t6]).2.requests "a") = [] ∧
        ((isAllowedRun RateLimiter.empty "a" [t1, t2, t3, t4, t5, t6]).2.is_allowed
            "a" t 5 300 900).1 = true ∧
        ((isAllowedRun RateLimiter.empty "a" [t1, t2, t3, t4, t5, t6]).2.is_allowed
            "a" t 5 300 900).2.requests "a" = [t]) := by
  set c1 := RateLimiter.empty.is_allowed "a" t1 5 300 900 with hc1
  set c2 := c1.2.is_allowed "a" t2 5 300 900 with hc2
  set c3 := c2.2.is_allowed "a" t3 5 300 900 with hc3
  set c4 := c3.2.is_allowed "a" t4 5 300 900 with hc4
  set c5 := c4.2.is_allowed "a" t5 5 300 900 with hc5
  set c6 := c5.2.is_allowed "a" t6 5 300 900 with hc6
  have e1 : c1 = (true,
      { requests := setAt RateLimiter.empty.requests "a" ([] ++ [t1]),
        blocked_ips := RateLimiter.empty.blocked_ips }) :=
    is_allowed_step_true _ _ _ [] rfl rfl rfl (by norm_num)
  have h1req : c1.2.requests "a" = [t1] := by simp only [e1]; rw [setAt_same]; rfl
  have h1b : c1.2.blocked_ips "a" = none := by simp only [e1]; rfl
  have e2 : c2 = (true,
      { requests := setAt c1.2.requests "a" ([t1] ++ [t2]),
        blocked_ips := c1.2.blocked_ips }) :=
    is_allowed_step_true _ _ _ [t1] h1b h1req (pruneOld_keep _ (by omega)) (by norm_num)
  have h2req : c2.2.requests "a" = [t1, t2] := by simp only [e2]; rw [setAt_same]; rfl
  have h2b : c2.2.blocked_ips "a" = none := by simp only [e2]; exact h1b
  have e3 : c3 = (true,
      { requests := setAt c2.2.requests "a" ([t1, t2] ++ [t3]),
        blocked_ips := c2.2.blocked_ips }) :=
    is_allowed_step_true _ _ _ [t1, t2] h2b h2req (pruneOld_keep _ (by omega)) (by norm_num)
  have h3req : c3.2.requests "a" = [t1, t2, t3] := by simp only [e3]; rw [setAt_same]; rfl
  have h3b : c3.2.blocked_ips "a" = none := by simp only [e3]; exact h2b
  have e4 : c4 = (true,
      { requests := setAt c3.2.requests "a" ([t1, t2, t3] ++ [t4]),
        blocked_ips := c3.2.blocked_ips }) :=
    is_allowed_step_true _ _ _ [t1, t2, t3] h3b h3req (pruneOld_keep _ (by omega)) (by norm_num)
  have h4req : c4.2.requests "a" = [t1, t2, t3, t4] := by simp only [e4]; rw [setAt_same]; rfl
  have h4b : c4.2.blocked_ips "a" = none := by simp only [e4]; exact h3b
  have e5 : c5 = (true,
      { requests := setAt c4.2.requests "a" ([t1, t2, t3, t4] ++ [t5]),
        blocked_ips := c4.2.blocked_ips }) :=
    is_allowed_step_true _ _ _ [t1, t2, t3, t4] h4b h4req (pruneOld_keep _ (by omega)) (by norm_num)
  have h5req : c5.2.requests "a" = [t1, t2, t3, t4, t5] := by simp only [e5]; rw [setAt_same]; rfl
  have h5b : c5.2.blocked_ips "a" = none := by simp only [e5]; exact h4b
  have e6 : c6 = (false,
      { requests := setAt c5.2.requests "a" [t1, t2, t3, t4, t5],
        blocked_ips := setAt c5.2.blocked_ips "a" (some (t6 + 900)) }) :=
    is_allowed_step_block _ _ _ [t1, t2, t3, t4, t5] h5b h5req
      (pruneOld_keep _ (by omega)) (by norm_num)
  have h6req : c6.2.requests "a" = [t1, t2, t3, t4, t5] := by
    simp only [e6]; rw [setAt_same]
  have h6b : c6.2.blocked_ips "a" = some (t6 + 900) := by
    simp only [e6]; rw [setAt_same]
  have hrun : isAllowedRun RateLimiter.empty "a" [t1, t2, t3, t4, t5, t6] =
      ([c1.1, c2.1, c3.1, c4.1, c5.1, c6.1], c6.2) := by
    simp only [isAllowedRun]
  refine ⟨?_, ?_, ?_, ?_⟩
  · rw [hrun]
    simp only [e1, e2, e3, e4, e5, e6]
  · rw [hrun]
    exact h6b
  · intro r b t hba hge hlt
    exact is_allowed_blocked ⟨r, b⟩ "a" t (t6 + 900) 5 300 900 hba hlt
  · intro t ht
    rw [hrun]
    have hp : pruneOld 300 t [t1, t2, t3, t4, t5] = [] := by
      refine pruneOld_all _ ?_
      intro x hx
      simp only [List.mem_cons, List.not_mem_nil, or_false] at hx
      rcases hx with h | h | h | h | h <;> omega
    have hmain := is_allowed_unblock_true c6.2 "a" t (t6 + 900) [t1, t2, t3, t4, t5]
      h6b (by omega) h6req hp
    exact ⟨by rw [h6req]; exact hp, hmain.1, hmain.2⟩

/-- Witness for `C1_rate_limiter_scenario`: all six calls at time 0. -/
theorem C1_rate_limiter_scenario_witness :
    (isAllowedRun RateLimiter.empty "a" [0, 0, 0, 0, 0, 0]).1 =
        [true, true, true, true, true, false] ∧
    (isAllowedRun RateLimiter.empty "a" [0, 0, 0, 0, 0, 0]).2.blocked_ips "a" =
        some ((0 : Int) + 900) ∧
    (∀ (r : String → List Int) (b : String → Option Int) (t : Int),
        b "a" = some ((0 : Int) + 900) → (0 : Int) ≤ t → t < (0 : Int) + 900 →
        RateLimiter.is_allowed ⟨r, b⟩ "a" t 5 300 900 = (false, ⟨r, b⟩)) ∧
    (∀ t : Int, (0 : Int) + 900 ≤ t →
        pruneOld 300 t
          ((isAllowedRun RateLimiter.empty "a" [0, 0, 0, 0, 0, 0]).2.requests "a") = [] ∧
        ((isAllowedRun RateLimiter.empty "a" [0, 0, 0, 0, 0, 0]).2.is_allowed
            "a" t 5 300 900).1 = true ∧
        ((isAllowedRun RateLimiter.empty "a" [0, 0, 0, 0, 0, 0]).2.is_allowed
            "a" t 5 300 900).2.requests "a" = [t]) :=
  C1_rate_limiter_scenario 0 0 0 0 0 0 (by decide) (by decide) (by decide) (by decide)
    (by decide) (by decide)

/-- C5 as literally stated ("for every rate-limiter state ... if after pruning
the count is ≥ max_requests, then is_allowed sets blocked_until to now +
block_duration") is false when the identifier is currently blocked: with a full
window and a live block expiring at 50, a call at time 0 returns false but
leaves `blocked_until = 50`, not `0 + 900`, and performs no pruning at all. -/
theorem C5_counterexample :
    let rl : RateLimiter :=
      { requests := fun _ => [-10, -10, -10, -10, -10],
        blocked_ips := fun _ => some 50 }
    5 ≤ (pruneOld 300 0 (rl.requests "a")).length ∧
    (rl.is_allowed "a" 0 5 300 900).1 = false ∧
    (rl.is_allowed "a" 0 5 300 900).2.blocked_ips "a" ≠ some (0 + 900) := by
  refine ⟨by decide, by decide, by decide⟩

/-- C5 (amended): provided the identifier is not currently blocked at the call
time (no `blocked_until` entry, or an expired one), if after pruning the
identifier's timestamp count is ≥ `max_requests` then `is_allowed` sets
`blocked_until = current_time + block_duration`, returns false, and does not
append the triggering timestamp: the stored sequence equals the pruned one. -/
theorem C5_block_on_limit (rl : RateLimiter) (identifier : String)
    (current_time : Int) (max_requests : Nat) (window_seconds block_duration : Int)
    (hnotblocked : ∀ b, rl.blocked_ips identifier = some b → b ≤ current_time)
    (hover : max_requests ≤
      (pruneOld window_seconds current_time (rl.requests identifier)).length) :
    (rl.is_allowed identifier current_time max_requests window_seconds block_duration).1 = false ∧
    (rl.is_allowed identifier current_time max_requests window_seconds block_duration).2.blocked_ips
        identifier = some (current_time + block_duration) ∧
    (rl.is_allowed identifier current_time max_requests window_seconds block_duration).2.requests
        identifier = pruneOld window_seconds current_time (rl.requests identifier) := by
  cases hb : rl.blocked_ips identifier with
  | some b =>
    have hble : b ≤ current_time := hnotblocked b hb
    simp only [RateLimiter.is_allowed, hb]
    rw [if_neg (by omega)]
    rw [allowCore_over _ _ _ _ _ _ (by simpa using hover)]
    refine ⟨rfl, by simp [setAt_same], by simp [setAt_same]⟩
  | none =>
    simp only [RateLimiter.is_allowed, hb]
    rw [allowCore_over _ _ _ _ _ _ hover]
    refine ⟨rfl, by simp [setAt_same], by simp [setAt_same]⟩

/-- Witness for `C5_block_on_limit` at a concrete state: five timestamps at 0,
no block, a call at time 10 with the default parameters. -/
theorem C5_block_on_limit_witness :
    let rl : RateLimiter :=
      { requests := fun _ => [0, 0, 0, 0, 0], blocked_ips := fun _ => none }
    (rl.is_allowed "a" 10 5 300 900).1 = false ∧
    (rl.is_allowed "a" 10 5 300 900).2.blocked_ips "a" = some (10 + 900) ∧
    (rl.is_allowed "a" 10 5 300 900).2.requests "a" = pruneOld 300 10 (rl.requests "a") :=
  C5_block_on_limit _ "a" 10 5 300 900 (by intro b hb; cases hb) (by decide)

/-! ### Password strength scoring (`security_utils.py`, `check_password_strength`) -/

/-- Decides whether `needle` is a prefix of `haystack` (over character lists). -/
def hasPrefixChars : List Char → List Char → Bool
  | [], _ => true
  | _ :: _, [] => false
  | a :: as, b :: bs => a = b && hasPrefixChars as bs

/-- Embedding of the Python substring test `needle in haystack`. -/
def containsSub (needle : List Char) : List Char → Bool
  | [] => needle.isEmpty
  | c :: cs => hasPrefixChars needle (c :: cs) || containsSub needle cs

/-- Fixed punctuation set of `check_password_strength`
(`"!@#$%^&*()_+-=[]{}|;:,.<>?"` in the source). -/
def specialChars : List Char := "!@#$%^&*()_+-=[]\x7b\x7d|;:,.<>?".toList

/-- Fixed denylist `common_patterns = ['123', 'abc', 'password', 'admin', 'user']`. -/
def common_patterns : List String := ["123", "abc", "password", "admin", "user"]

/-- Result dict of `check_password_strength`. -/
structure StrengthResult where
  score : Int
  feedback : List String
  is_strong : Bool
deriving DecidableEq

/-- Embedding of `check_password_strength(password)`: one point per satisfied
criterion, minus one for a denylisted substring of the lowercased password;
the reported score is floored at 0 while `is_strong` uses the raw value.
Character classes follow the ASCII readings of `str.isupper` / `str.islower`
/ `str.isdigit` / `str.lower`. -/
def check_password_strength (password : String) : StrengthResult :=
  let cs := password.toList
  let lenOk := decide (8 ≤ cs.length)
  let upOk := cs.any Char.isUpper
  let lowOk := cs.any Char.isLower
  let digOk := cs.any Char.isDigit
  let symOk := cs.any (fun c => specialChars.contains c)
  let hasCommon := common_patterns.any
    (fun p => containsSub p.toList (cs.map Char.toLower))
  let score : Int :=
    (if lenOk then 1 else 0) + (if upOk then 1 else 0) + (if lowOk then 1 else 0)
      + (if digOk then 1 else 0) + (if symOk then 1 else 0)
      - (if hasCommon then 1 else 0)
  let feedback :=
    (if lenOk then [] else ["Password should be at least 8 characters long"])
      ++ (if upOk then [] else ["Password should contain at least one uppercase letter"])
      ++ (if lowOk then [] else ["Password should contain at least one lowercase letter"])
      ++ (if digOk then [] else ["Password should contain at least one number"])
      ++ (if symOk then [] else ["Password should contain at least one special character"])
      ++ (if hasCommon then ["Password should not contain common patterns"] else [])
  { score := max 0 score, feedback := feedback, is_strong := decide (4 ≤ score) }

/-- Raw (pre-floor) strength score as the claim describes it: one point each
for length ≥ 8, an uppercase letter, a lowercase letter, a digit, and a symbol
from the fixed punctuation set, minus one if the lowercased password contains
any denylisted substring. -/
def rawStrengthScore (password : String) : Int :=
  (if 8 ≤ password.toList.length then 1 else 0)
    + (if password.toList.any Char.isUpper then 1 else 0)
    + (if password.toList.any Char.isLower then 1 else 0)
    + (if password.toList.any Char.isDigit then 1 else 0)
    + (if password.toList.any (fun c => specialChars.contains c) then 1 else 0)
    - (if common_patterns.any
          (fun p => containsSub p.toList (password.toList.map Char.toLower))
       then 1 else 0)

/-- C4: for every password, the reported score of `check_password_strength` is
the raw additive score floored at 0, and `is_strong` is true iff the raw
(pre-floor) score is at least 4. -/
theorem C4_password_strength (password : String) :
    (check_password_strength password).score = max 0 (rawStrengthScore password) ∧
    ((check_password_strength password).is_strong = true ↔
      4 ≤ rawStrengthScore password) := by
  constructor
  · simp only [check_password_strength, rawStrengthScore, decide_eq_true_eq]
  · simp only [check_password_strength, rawStrengthScore, decide_eq_true_eq]

/-! ### Security events and session manager (`security_utils.py`) -/

/-- Structured record emitted through `log_security_event(event_type, details,
user_id)` (timestamp / ip / user-agent fields are handled separately in the
`log_security_event` embedding below). -/
structure SecurityEvent where
  event_type : String
  details : String
  user_id : Option Int
deriving DecidableEq

/-- Flask session dict restricted to the keys this code reads and writes;
`none` models an absent key, `permanent` models `session.permanent`. -/
structure FlaskSession where
  user_id : Option Int
  login_time : Option Int
  last_activity : Option Int
  session_token : Option String
  permanent : Bool
deriving DecidableEq

/-- Session dict after `session.clear()`. -/
def emptySession : FlaskSession :=
  { user_id := none, login_time := none, last_activity := none,
    session_token := none, permanent := false }

/-- Embedding of `SessionManager.create_session(user_id, remember_me)`.
`sha256hex` stands for `hashlib.sha256(...).hexdigest()`, a fixed deterministic
digest function passed as a parameter; `now` stands for the `time.time()`
readings of the call (modelled as one reading). The session token is computed
exactly as in the source: the digest of `f"{user_id}{time.time()}"`. Returns
the new session and the emitted `user_login` security event. -/
def create_session (sha256hex : String → String) (user_id : Int) (now : Int)
    (remember_me : Bool) : FlaskSession × List SecurityEvent :=
  ({ user_id := some user_id, login_time := some now, last_activity := some now,
     session_token := some (sha256hex (toString user_id ++ toString now)),
     permanent := remember_me },
   [{ event_type := "user_login",
      details := "User " ++ toString user_id ++ " logged in",
      user_id := some user_id }])

/-- Embedding of `SessionManager.update_activity()` at clock reading `now`. -/
def update_activity (now : Int) (s : FlaskSession) : FlaskSession :=
  match s.user_id with
  | some _ => { s with last_activity := some now }
  | none => s

/-- Embedding of `SessionManager.destroy_session()`: emits a `user_logout`
event when a truthy `user_id` is present (Python `if user_id:` — `None` and
`0` are falsy), then clears the session. -/
def destroy_session (s : FlaskSession) : FlaskSession × List SecurityEvent :=
  (emptySession,
   match s.user_id with
   | some uid =>
     if uid = 0 then []
     else [{ event_type := "user_logout",
             details := "User " ++ toString uid ++ " logged out",
             user_id := some uid }]
   | none => [])

/-- Embedding of `SessionManager.is_session_valid()` at clock reading `now`
with the configured timeout (in seconds, already converted from the
`PERMANENT_SESSION_LIFETIME` config value): false when no `user_id` key is
present; otherwise reads `last_activity` with default 0 and lazily destroys
the session when idle longer than the timeout. Returns the validity verdict,
the resulting session, and any emitted events. -/
def is_session_valid (now timeout_seconds : Int) (s : FlaskSession) :
    Bool × FlaskSession × List SecurityEvent :=
  match s.user_id with
  | none => (false, s, [])
  | some _ =>
    let last_activity := s.last_activity.getD 0
    if timeout_seconds < now - last_activity then
      let d := destroy_session s
      (false, d.1, d.2)
    else
      (true, s, [])

/-- C6: session validation is the expiry sweep. With no session it is false;
with a session idle beyond the timeout it destroys the session (so a second
call, with no intervening create, is also false); within the timeout it is
true and leaves the session alone; and `update_activity` before the deadline
resets the idle clock, keeping validation true past the original deadline. -/
theorem C6_session_validation (now timeout : Int) (s : FlaskSession) :
    (s.user_id = none → is_session_valid now timeout s = (false, s, [])) ∧
    (∀ u : Int, s.user_id = some u →
        timeout < now - s.last_activity.getD 0 →
        (is_session_valid now timeout s).1 = false ∧
        (is_session_valid now timeout s).2.1 = emptySession ∧
        (∀ now2 : Int, (is_session_valid now2 timeout emptySession).1 = false)) ∧
    (∀ u : Int, s.user_id = some u →
        now - s.last_activity.getD 0 ≤ timeout →
        is_session_valid now timeout s = (true, s, [])) ∧
    (∀ u t2 : Int, s.user_id = some u →
        t2 - now ≤ timeout →
        (is_session_valid t2 timeout (update_activity now s)).1 = true) := by
  refine ⟨?_, ?_, ?_, ?_⟩
  · intro h
    simp only [is_session_valid, h]
  · intro u hu hlt
    simp only [is_session_valid, hu]
    rw [if_pos hlt]
    exact ⟨rfl, rfl, fun now2 => rfl⟩
  · intro u hu hle
    simp only [is_session_valid, hu]
    rw [if_neg (by omega)]
  · intro u t2 hu hle
    have htouch : update_activity now s = { s with last_activity := some now } := by
      simp only [update_activity, hu]
    rw [htouch]
    have hu2 : ({ s with last_activity := some now } : FlaskSession).user_id = some u := hu
    simp only [is_session_valid, hu2]
    rw [if_neg (by simp only [Option.getD_some]; omega)]
    simp only [hu]

/-- Witness for `C6_session_validation`: a session for user 1 created at time
0, checked with a 10-second timeout at time 100 (expired path) and with the
touch path at times 5 and 14. -/
theorem C6_session_validation_witness :
    let s : FlaskSession :=
      { user_id := some 1, login_time := some 0, last_activity := some 0,
        session_token := some "tok", permanent := false }
    ((is_session_valid 100 10 s).1 = false ∧
      (is_session_valid 100 10 s).2.1 = emptySession ∧
      (∀ now2 : Int, (is_session_valid now2 10 emptySession).1 = false)) ∧
    is_session_valid 9 10 s = (true, s, []) ∧
    (is_session_valid 14 10 (update_activity 5 s)).1 = true := by
  refine ⟨(C6_session_validation 100 10 _).2.1 1 rfl (by decide),
    (C6_session_validation 9 10 _).2.2.1 1 rfl (by decide),
    (C6_session_validation 5 10 _).2.2.2 1 14 rfl (by decide)⟩

/-- C10: a malformed session holding a `user_id` but no `last_activity` key is
read with `last_activity = 0`, so whenever the clock exceeds the timeout the
session is destroyed and validation returns false (no exception, no
acceptance). -/
theorem C10_missing_last_activity (now timeout : Int) (s : FlaskSession) (u : Int)
    (hu : s.user_id = some u) (hla : s.last_activity = none)
    (hclock : timeout < now) :
    (is_session_valid now timeout s).1 = false ∧
    (is_session_valid now timeout s).2.1 = emptySession := by
  have key : is_session_valid now timeout s =
      (false, (destroy_session s).1, (destroy_session s).2) := by
    simp only [is_session_valid, hu, hla, Option.getD_none]
    rw [if_pos (by omega)]
  rw [key]
  exact ⟨rfl, rfl⟩

/-- Witness for `C10_missing_last_activity`: user 7 present, `last_activity`
absent, timeout 3600, clock 4000. -/
theorem C10_missing_last_activity_witness :
    let s : FlaskSession :=
      { user_id := some 7, login_time := none, last_activity := none,
        session_token := none, permanent := false }
    (is_session_valid 4000 3600 s).1 = false ∧
    (is_session_valid 4000 3600 s).2.1 = emptySession :=
  C10_missing_last_activity 4000 3600 _ 7 rfl rfl (by decide)

/-- C8 (refuting the claimed randomness): in the source the session token is
`sha256(f"{user_id}{time.time()}")`, so for any fixed digest function it is a
deterministic function of the user id and the clock reading alone — two
creations observing identical `user_id` and time always produce the same
token, whatever the `remember_me` flags or prior session state. -/
theorem C8_session_token_deterministic (sha256hex : String → String)
    (user_id now : Int) (r1 r2 : Bool) :
    (create_session sha256hex user_id now r1).1.session_token =
      (create_session sha256hex user_id now r2).1.session_token := rfl

/-! ### Password-reset tokens (`app.py`, `User.generate_reset_token` /
`verify_reset_token` / `clear_reset_token`) -/

/-- Reset-token fields of the `User` model (`reset_token` and
`reset_token_expires` are nullable columns). Timestamps model
`datetime.utcnow()` readings in seconds. -/
structure ResetUser where
  reset_token : Option String
  reset_token_expires : Option Int
deriving DecidableEq

/-- Embedding of `User.verify_reset_token(token)`:
`self.reset_token == token and self.reset_token_expires and
self.reset_token_expires > datetime.utcnow()`. A `None` stored token never
equals the presented string; a missing expiry is falsy; the Python truthy
`None` return on a missing expiry reads as false at the call sites. Pure:
mutates nothing. -/
def verify_reset_token (u : ResetUser) (token : String) (now : Int) : Bool :=
  (u.reset_token == some token) &&
    (match u.reset_token_expires with
     | some e => decide (now < e)
     | none => false)

/-- Embedding of `User.generate_reset_token()`: `fresh` stands for the
`secrets.token_urlsafe(32)` draw (an explicit entropy input); the expiry is
set to `now + 1 hour`. Returns the token together with the updated record. -/
def generate_reset_token (fresh : String) (now : Int) (_u : ResetUser) :
    String × ResetUser :=
  (fresh, { reset_token := some fresh, reset_token_expires := some (now + 3600) })

/-- Embedding of `User.clear_reset_token()`: unsets token and expiry. -/
def clear_reset_token (_u : ResetUser) : ResetUser :=
  { reset_token := none, reset_token_expires := none }

/-- C7: `verify_reset_token` is a pure predicate, true exactly when the stored
token equals the presented one, a token/expiry is set, and `now` is strictly
before the expiry; issuing a new token (whose random draw differs from the old
token) immediately invalidates the old one; the fresh token verifies at
`expires_at - 1` second and fails from the moment the 1-hour lifetime has
passed; and a cleared record verifies nothing. -/
theorem C7_reset_token (u : ResetUser) (token fresh old : String) (now t : Int) :
    (verify_reset_token u token now = true ↔
      (u.reset_token = some token ∧
        ∃ e, u.reset_token_expires = some e ∧ now < e)) ∧
    (fresh ≠ old →
      verify_reset_token (generate_reset_token fresh now u).2 old t = false) ∧
    (verify_reset_token (generate_reset_token fresh now u).2 fresh
        (now + 3600 - 1) = true) ∧
    (now + 3600 ≤ t →
      verify_reset_token (generate_reset_token fresh now u).2 fresh t = false) ∧
    (verify_reset_token (clear_reset_token u) token now = false) := by
  refine ⟨?_, ?_, ?_, ?_, ?_⟩
  · cases he : u.reset_token_expires with
    | none => simp [verify_reset_token, he]
    | some e => simp [verify_reset_token, he]
  · intro hne
    have hb : ((some fresh : Option String) == some old) = false := by
      simp [hne]
    simp [verify_reset_token, generate_reset_token, hb]
  · simp only [verify_reset_token, generate_reset_token]
    simp only [beq_self_eq_true, Bool.true_and, decide_eq_true_eq]
    omega
  · intro hle
    simp only [verify_reset_token, generate_reset_token]
    simp only [beq_self_eq_true, Bool.true_and, decide_eq_false_iff_not]
    omega
  · simp [verify_reset_token, clear_reset_token]


/-- Witness for `C7_reset_token`: stored token "tok" expiring at 10, queried at
time 0; a new token "new" issued at time 0 and queried at 3599 and 5000. -/
theorem C7_reset_token_witness :
    (verify_reset_token ⟨some "tok", some 10⟩ "tok" 0 = true ↔
      ((⟨some "tok", some 10⟩ : ResetUser).reset_token = some "tok" ∧
        ∃ e, (⟨some "tok", some 10⟩ : ResetUser).reset_token_expires = some e ∧
          (0 : Int) < e)) ∧
    verify_reset_token
      (generate_reset_token "new" 0 ⟨some "tok", some 10⟩).2 "tok" 5000 = false ∧
    verify_reset_token
      (generate_reset_token "new" 0 ⟨some "tok", some 10⟩).2 "new"
      ((0 : Int) + 3600 - 1) = true ∧
    verify_reset_token
      (generate_reset_token "new" 0 ⟨some "tok", some 10⟩).2 "new" 5000 = false ∧
    verify_reset_token (clear_reset_token ⟨some "tok", some 10⟩) "tok" 0 = false := by
  have h := C7_reset_token ⟨some "tok", some 10⟩ "tok" "new" "tok" 0 5000
  exact ⟨h.1, h.2.1 (by decide), h.2.2.1, h.2.2.2.1 (by decide), h.2.2.2.2⟩

/-! ### Client identification and security-event logging
(`security_utils.py`, `get_client_ip` / `log_security_event`) -/

/-- Per-request inputs read by `get_client_ip` and `log_security_event`:
the two proxy headers, the `User-Agent` header (each `none` when absent), and
the direct peer address. -/
structure RequestInfo where
  x_forwarded_for : Option String
  x_real_ip : Option String
  user_agent : Option String
  remote_addr : String

/-- Embedding of Python `str.split(sep)` for a single-character separator
(over character lists): always returns at least one piece. -/
def splitChars (sep : Char) : List Char → List (List Char)
  | [] => [[]]
  | c :: cs =>
    match splitChars sep cs with
    | [] => if c = sep then [[], []] else [[c]]
    | h :: t => if c = sep then [] :: h :: t else (c :: h) :: t

/-- Embedding of Python `str.strip()` (default whitespace stripping, ASCII
whitespace classes). -/
def pyStrip (cs : List Char) : List Char :=
  ((cs.dropWhile Char.isWhitespace).reverse.dropWhile Char.isWhitespace).reverse

theorem splitChars_ne_nil (sep : Char) (cs : List Char) : splitChars sep cs ≠ [] := by
  cases cs with
  | nil => simp [splitChars]
  | cons c cs =>
    cases h : splitChars sep cs with
    | nil => simp [splitChars, h]; split <;> simp
    | cons x xs => simp [splitChars, h]; split <;> simp

/-- Embedding of `get_client_ip()`: first entry of `X-Forwarded-For`
(stripped) when that header is truthy, else a truthy `X-Real-IP`, else the
peer address. The one fallible primitive, the `[0]` indexing into the split
result, is modelled explicitly with `Except` (an `IndexError` would surface as
`.error`). -/
def get_client_ip (req : RequestInfo) : Except String String :=
  if req.x_forwarded_for.getD "" ≠ "" then
    match (splitChars ',' (req.x_forwarded_for.getD "").toList).head? with
    | some first => .ok (String.mk (pyStrip first))
    | none => .error "IndexError"
  else if req.x_real_ip.getD "" ≠ "" then .ok (req.x_real_ip.getD "")
  else .ok req.remote_addr

/-- Log record built by `log_security_event` (the `print` sink receives it). -/
structure LogEntry where
  timestamp : String
  event_type : String
  details : String
  user_id : Option Int
  ip_address : String
  user_agent : String

/-- Embedding of `log_security_event(event_type, details, user_id)` inside a
request context: formats the timestamp (passed in, `time.strftime` is total),
resolves the client ip, defaults the user agent to "Unknown", and emits the
record; any failure of a fallible primitive would propagate as `.error`. -/
def log_security_event (timestamp : String) (req : RequestInfo)
    (event_type details : String) (user_id : Option Int) :
    Except String LogEntry :=
  match get_client_ip req with
  | .error e => .error e
  | .ok ip =>
    .ok { timestamp := timestamp, event_type := event_type, details := details,
          user_id := user_id, ip_address := ip,
          user_agent := req.user_agent.getD "Unknown" }

theorem get_client_ip_ok (req : RequestInfo) : (get_client_ip req).isOk = true := by
  unfold get_client_ip
  split
  case isTrue h =>
    cases hh : (splitChars ',' (req.x_forwarded_for.getD "").toList).head? with
    | some first => simp only [hh]; rfl
    | none =>
      exact absurd (List.head?_eq_none_iff.mp hh)
        (splitChars_ne_nil ',' (req.x_forwarded_for.getD "").toList)
  case isFalse h =>
    split
    · rfl
    · rfl

/-- C3: for every event type, details string, optional user id, request
context, and timestamp, `log_security_event` completes with a record — no
fallible primitive it relies on can fail, so a logging failure cannot affect
the caller's control flow. -/
theorem C3_log_security_event_total (timestamp : String) (req : RequestInfo)
    (event_type details : String) (user_id : Option Int) :
    (log_security_event timestamp req event_type details user_id).isOk = true := by
  have hsame : (log_security_event timestamp req event_type details user_id).isOk =
      (get_client_ip req).isOk := by
    unfold log_security_event
    cases get_client_ip req <;> rfl
  rw [hsame]
  exact get_client_ip_ok req

/-! ### Password hashing (`app.py`, `User.set_password` / `User.check_password`)

Modelled from the spec: the bodies of werkzeug's `generate_password_hash` /
`check_password_hash` are not part of this repository, so the Credential
Manager contract of the spec is modelled here — a salted iterated digest with
the encoded form `method$salt$digest`, where `check` re-derives the digest
from the salt embedded in the encoded hash. The digest (`hashInternal`,
PBKDF2-HMAC-SHA256 in werkzeug) is a fixed deterministic function passed as a
parameter; the per-call random salt is an explicit entropy input (werkzeug
draws it from letters and digits, so it never contains the `$` separator). -/

/-- Embedding of Python `str.split(sep, 1)`, the single split at the first
occurrence of `sep` used to parse `method$salt$digest` (`none` when `sep` does
not occur). -/
def splitOnceChar (c : Char) : List Char → Option (List Char × List Char)
  | [] => none
  | a :: as =>
    if a = c then some ([], as)
    else
      match splitOnceChar c as with
      | none => none
      | some p => some (a :: p.1, p.2)

/-- Method tag produced by `generate_password_hash(password,
method='pbkdf2:sha256', salt_length=16)` (werkzeug appends its default
iteration count; the exact constant is irrelevant to the claims). -/
def hashMethod : String := "pbkdf2:sha256:600000"

/-- Modelled from the spec: werkzeug `generate_password_hash` — encodes the
method tag, the salt, and the digest of (method, salt, password). -/
def generate_password_hash (hashInternal : String → String → String → String)
    (salt password : String) : String :=
  hashMethod ++ "$" ++ salt ++ "$" ++ hashInternal hashMethod salt password

/-- Modelled from the spec: werkzeug `check_password_hash` — parses
`method$salt$digest`, re-derives the digest with the embedded method and salt,
and compares; malformed encodings verify nothing. -/
def check_password_hash (hashInternal : String → String → String → String)
    (pwhash password : String) : Bool :=
  match splitOnceChar '$' pwhash.toList with
  | some p1 =>
    match splitOnceChar '$' p1.2 with
    | some p2 =>
      p2.2 == (hashInternal (String.mk p1.1) (String.mk p2.1) password).toList
    | none => false
  | none => false

theorem splitOnce_append (c : Char) (l r : List Char) (h : c ∉ l) :
    splitOnceChar c (l ++ c :: r) = some (l, r) := by
  induction l with
  | nil => simp [splitOnceChar]
  | cons a as ih =>
    have ha : a ≠ c := by intro e; exact h (by simp [e])
    have hm : c ∉ as := fun hx => h (by simp [hx])
    simp [splitOnceChar, ha, ih hm]

theorem generate_toList (hashInternal : String → String → String → String)
    (salt password : String) :
    (generate_password_hash hashInternal salt password).toList =
      hashMethod.toList ++ '$' ::
        (salt.toList ++ '$' :: (hashInternal hashMethod salt password).toList) := by
  simp [generate_password_hash, String.toList]

theorem hashMethod_no_sep : '$' ∉ hashMethod.toList := by decide

/-- C9: for every digest function, password, and pair of distinct separator-free
salts, the generated encoded hash verifies the password, two generations with
different salts yield different encoded hashes, and each still verifies the
password. -/
theorem C9_password_hash (hashInternal : String → String → String → String)
    (salt1 salt2 password : String)
    (h1 : '$' ∉ salt1.toList) (h2 : '$' ∉ salt2.toList) (hne : salt1 ≠ salt2) :
    check_password_hash hashInternal
        (generate_password_hash hashInternal salt1 password) password = true ∧
    check_password_hash hashInternal
        (generate_password_hash hashInternal salt2 password) password = true ∧
    generate_password_hash hashInternal salt1 password ≠
      generate_password_hash hashInternal salt2 password := by
  have roundtrip : ∀ salt : String, '$' ∉ salt.toList →
      check_password_hash hashInternal
        (generate_password_hash hashInternal salt password) password = true := by
    intro salt hs
    unfold check_password_hash
    rw [generate_toList]
    rw [splitOnce_append _ _ _ hashMethod_no_sep]
    simp only [splitOnce_append '$' salt.toList
      ((hashInternal hashMethod salt password).toList) hs]
    simp
  refine ⟨roundtrip salt1 h1, roundtrip salt2 h2, ?_⟩
  intro he
  have ht := congrArg String.toList he
  rw [generate_toList, generate_toList] at ht
  have ht2 := List.append_cancel_left ht
  injection ht2 with _ ht3
  have hsplit := congrArg (splitOnceChar '$') ht3
  rw [splitOnce_append _ _ _ h1, splitOnce_append _ _ _ h2] at hsplit
  simp only [Option.some.injEq, Prod.mk.injEq] at hsplit
  exact hne (String.ext hsplit.1)

/-- Witness for `C9_password_hash`: a concrete digest function and the salts
"aa" and "bb" with password "pw". -/
theorem C9_password_hash_witness :
    check_password_hash (fun _ s p => s ++ p)
        (generate_password_hash (fun _ s p => s ++ p) "aa" "pw") "pw" = true ∧
    check_password_hash (fun _ s p => s ++ p)
        (generate_password_hash (fun _ s p => s ++ p) "bb" "pw") "pw" = true ∧
    generate_password_hash (fun _ s p => s ++ p) "aa" "pw" ≠
      generate_password_hash (fun _ s p => s ++ p) "bb" "pw" :=
  C9_password_hash (fun _ s p => s ++ p) "aa" "bb" "pw"
    (by decide) (by decide) (by decide)

/-! ### Login route (`app.py`, `login`) -/

/-- Fields of the `User` row that the login branch reads. -/
structure LoginUserRec where
  id : Int
  password_hash : String
  is_active : Bool

/-- Outcome of one validated login form submission: the flashed message with
its category, the security events emitted, and whether a session was created. -/
structure LoginResult where
  flash_message : String
  flash_category : String
  events : List SecurityEvent
  session_created : Bool
deriving DecidableEq

/-- Embedding of the body of the `login` route after form validation.
`lookup` is the result of `get_user_by_username_or_email(form.username.data)`
(`none` when no row matches); the password test delegates to the werkzeug
model `check_password_hash` with the digest function `hashInternal`. The
`user_login` event comes from `SessionManager.create_session`; redirects and
the `last_login` commit are outside the surfaced outcome. -/
def login (hashInternal : String → String → String → String)
    (lookup : Option LoginUserRec) (username password : String) : LoginResult :=
  match lookup with
  | some user =>
    if check_password_hash hashInternal user.password_hash password then
      if user.is_active then
        { flash_message := "Login successful!", flash_category := "success",
          events := [{ event_type := "user_login",
                       details := "User " ++ toString user.id ++ " logged in",
                       user_id := some user.id }],
          session_created := true }
      else
        { flash_message := "Your account has been deactivated. Please contact support.",
          flash_category := "error", events := [], session_created := false }
    else
      { flash_message := "Invalid username or password.", flash_category := "error",
        events := [{ event_type := "failed_login_attempt",
                     details := "Failed login for username: " ++ username,
                     user_id := none }],
        session_created := false }
  | none =>
    { flash_message := "Invalid username or password.", flash_category := "error",
      events := [{ event_type := "failed_login_attempt",
                   details := "Failed login for username: " ++ username,
                   user_id := none }],
      session_created := false }

/-- C2 as stated is false on the code: a correct password on an inactive
account flashes the distinguishing "Your account has been deactivated. Please
contact support." — not the uniform "Invalid username or password." that a
wrong password gets — and the Security Event Logger records nothing at all for
that failure. Concretely, for user 1 (inactive, password "pw"). -/
theorem C2_counterexample :
    let hI : String → String → String → String := fun _ s p => s ++ p
    let u : LoginUserRec :=
      { id := 1, password_hash := generate_password_hash hI "aa" "pw",
        is_active := false }
    (login hI (some u) "alice" "pw").flash_message ≠ "Invalid username or password." ∧
    (login hI (some u) "alice" "pw").events = [] ∧
    (login hI (some u) "alice" "pw").flash_message ≠
      (login hI (some u) "alice" "wrong").flash_message := by
  refine ⟨by decide, by decide, by decide⟩

/-- C2 (amended): bad credentials — unknown user, or a known user with a
non-matching password — are surfaced uniformly as "Invalid username or
password." with a logged `failed_login_attempt` event, so those two causes are
indistinguishable to the end user; but a correct password on an inactive
account is surfaced as a distinct deactivation message, distinguishable from
the bad-credentials outcome, and no security event records that cause. -/
theorem C2_login_failure_messages (hashInternal : String → String → String → String)
    (lookup : Option LoginUserRec) (username password : String) :
    ((lookup = none ∨ ∃ u, lookup = some u ∧
        check_password_hash hashInternal u.password_hash password = false) →
      login hashInternal lookup username password =
        { flash_message := "Invalid username or password.", flash_category := "error",
          events := [{ event_type := "failed_login_attempt",
                       details := "Failed login for username: " ++ username,
                       user_id := none }],
          session_created := false }) ∧
    (∀ u, lookup = some u →
        check_password_hash hashInternal u.password_hash password = true →
        u.is_active = false →
        login hashInternal lookup username password =
          { flash_message := "Your account has been deactivated. Please contact support.",
            flash_category := "error", events := [], session_created := false }) := by
  constructor
  · rintro (h | ⟨u, hu, hpw⟩)
    · simp [login, h]
    · simp [login, hu, hpw]
  · intro u hu hpw hina
    simp [login, hu, hpw, hina]

/-- Witness for `C2_login_failure_messages`: the unknown-user branch and the
inactive-account branch at concrete inputs. -/
theorem C2_login_failure_messages_witness :
    let hI : String → String → String → String := fun _ s p => s ++ p
    let u : LoginUserRec :=
      { id := 1, password_hash := generate_password_hash hI "aa" "pw",
        is_active := false }
    login hI none "bob" "x" =
      { flash_message := "Invalid username or password.", flash_category := "error",
        events := [{ event_type := "failed_login_attempt",
                     details := "Failed login for username: " ++ "bob",
                     user_id := none }],
        session_created := false } ∧
    login hI (some u) "alice" "pw" =
      { flash_message := "Your account has been deactivated. Please contact support.",
        flash_category := "error", events := [], session_created := false } := by
  refine ⟨(C2_login_failure_messages _ none "bob" "x").1 (Or.inl rfl),
    (C2_login_failure_messages _ (some _) "alice" "pw").2 _ rfl (by decide) rfl⟩
